import Mathlib

/-!
Verification of the Nudge background-training supervisor and inference
service against their specification.

The Python sources `background_trainer.py` and `model_inference.py` are
shallowly embedded below.  File-system contents (model artifacts, the
persisted trainer-state file) are explicit fields of record types; sample
counts are integers (Python `int`); probabilities are rationals; Python
exceptions become explicit outcome constructors (`TrainOutcome.throws`,
`Except.error`); the CPython bytecode-level interleaving of the unlocked
`request_count` counter and of signal delivery is modelled by small-step
machines driven by an explicit schedule.
-/

namespace Nudge

/-! ## Retraining supervisor (`background_trainer.py`) -/

/-- Configuration of `BackgroundTrainer.__init__`: the two trigger
thresholds (`min_new_samples`, `min_total_samples`). -/
structure TrainerConfig where
  min_new_samples : ℤ
  min_total_samples : ℤ
deriving Repr, DecidableEq

/-- The persisted Trainer State: `self.last_trained_samples` and
`self.training_count`. -/
structure TrainerState where
  last_trained_samples : ℤ
  training_count : ℕ
deriving Repr, DecidableEq

/-- The Model Store: the current artifact file
`productivity_model.keras` and the backup file
`productivity_model.backup.keras`, each possibly absent.  `α` is the
opaque artifact content. -/
structure ModelStore (α : Type) where
  current : Option α
  backup : Option α
deriving Repr, DecidableEq

/-- `BackgroundTrainer.should_train` (background_trainer.py lines
118-146): first training requires `current_samples >= min_total_samples`;
later trainings require
`current_samples - last_trained_samples >= min_new_samples`.
Subtraction is Python `int` subtraction, hence `ℤ`. -/
def should_train (cfg : TrainerConfig) (s : TrainerState)
    (current_samples : ℤ) : Bool :=
  if s.training_count = 0 then
    decide (current_samples ≥ cfg.min_total_samples)
  else
    decide (current_samples - s.last_trained_samples ≥ cfg.min_new_samples)

/-- `BackgroundTrainer.backup_model` (lines 148-160): if a current
artifact exists, copy it to the backup path; otherwise do nothing.  The
copy itself is modelled as reliable. -/
def backup_model {α : Type} (st : ModelStore α) : ModelStore α :=
  match st.current with
  | some a => { st with backup := some a }
  | none => st

/-- `BackgroundTrainer.rollback_model` (lines 196-211): if a backup
exists, copy it over the current artifact and report success; otherwise
leave the store unchanged and report failure. -/
def rollback_model {α : Type} (st : ModelStore α) : ModelStore α × Bool :=
  match st.backup with
  | some b => ({ st with current := some b }, true)
  | none => (st, false)

/-- Outcome of the call to `train_modern` inside the `try` block:
either it raises an exception, or it writes a freshly trained artifact
to the current path and returns. -/
inductive TrainOutcome (α : Type) where
  | throws
  | writes (a : α)
deriving Repr, DecidableEq

/-- Whether a cycle with this trainer outcome fails, i.e. takes the
rollback path of `train_model`: the trainer threw, or the freshly
written artifact fails `validate_model` (modelled by the opaque
predicate `valid`). -/
def cycleFails {α : Type} (valid : α → Bool) : TrainOutcome α → Bool
  | .throws => true
  | .writes a => !valid a

/-- Result of one `BackgroundTrainer.train_model` cycle: the in-memory
Trainer State, the Model Store, whether `save_state` ran during the
cycle, and the boolean the method returns. -/
structure CycleResult (α : Type) where
  state : TrainerState
  store : ModelStore α
  saved : Bool
  ok : Bool
deriving Repr, DecidableEq

/-- `BackgroundTrainer.train_model` (lines 213-262).  `valid` is the
`validate_model` gate applied to the freshly written artifact;
`commit_count` is the value of the fresh `get_sample_count()` call made
at commit time (line 243) — `train_model` never receives the row count
observed at trigger time.  Steps: back up the current artifact, run the
trainer; on an exception roll back and return failure; otherwise install
the written artifact, validate it; on validation failure roll back and
return failure; on success increment `training_count`, set
`last_trained_samples` to `commit_count`, persist, and return success. -/
def train_model {α : Type} (valid : α → Bool) (outcome : TrainOutcome α)
    (commit_count : ℤ) (s : TrainerState) (st : ModelStore α) :
    CycleResult α :=
  let st1 := backup_model st
  match outcome with
  | .throws =>
      let r := rollback_model st1
      ⟨s, r.1, false, false⟩
  | .writes a =>
      let st2 : ModelStore α := { st1 with current := some a }
      if valid a then
        ⟨⟨commit_count, s.training_count + 1⟩, st2, true, true⟩
      else
        let r := rollback_model st2
        ⟨s, r.1, false, false⟩

/-- One observable action of the supervisor's polling loop
(`BackgroundTrainer.run`, lines 281-305, plus `shutdown`): a tick that
finds no CSV, a tick whose trigger does not fire (carrying the row count
`c` it observed), a tick that runs a training cycle (carrying the
trigger-time count `cTrig`, the commit-time count `cCommit`, the trainer
outcome and the validation gate), or the shutdown handler (which only
re-persists the unchanged state). -/
inductive SupervisorOp (α : Type) where
  | tickNoCsv
  | tickNoTrain (c : ℤ)
  | tickCycle (valid : α → Bool) (outcome : TrainOutcome α) (cTrig cCommit : ℤ)
  | shutdownOp

/-- Effect of one supervisor operation on the in-memory Trainer State
and the Model Store, mirroring the body of the polling loop: a cycle
runs only when `should_train` fires on the trigger-time count. -/
def supervisor_step {α : Type} (cfg : TrainerConfig)
    (p : TrainerState × ModelStore α) :
    SupervisorOp α → TrainerState × ModelStore α
  | .tickNoCsv => p
  | .tickNoTrain _ => p
  | .tickCycle valid outcome cTrig cCommit =>
      if should_train cfg p.1 cTrig then
        let r := train_model valid outcome cCommit p.1 p.2
        (r.state, r.store)
      else p
  | .shutdownOp => p

/-- Run the supervisor over a sequence of operations. -/
def supervisor_run {α : Type} (cfg : TrainerConfig)
    (p : TrainerState × ModelStore α) (ops : List (SupervisorOp α)) :
    TrainerState × ModelStore α :=
  ops.foldl (supervisor_step cfg) p

/-- The row counts an operation observes on the Dataset Source, in the
order it observes them: a triggering tick observes the trigger-time
count and then the commit-time count. -/
def opObs {α : Type} : SupervisorOp α → List ℤ
  | .tickNoCsv => []
  | .tickNoTrain c => [c]
  | .tickCycle _ _ cTrig cCommit => [cTrig, cCommit]
  | .shutdownOp => []

/-- All row counts a sequence of operations observes, in order. -/
def obsOf {α : Type} (ops : List (SupervisorOp α)) : List ℤ :=
  ops.flatMap opObs

/-- Whether an operation, from state `s`, commits a successful training
cycle (the only path of `train_model` that mutates Trainer State). -/
def opCommits {α : Type} (cfg : TrainerConfig) (s : TrainerState) :
    SupervisorOp α → Bool
  | .tickCycle valid outcome cTrig _ =>
      should_train cfg s cTrig && !cycleFails valid outcome
  | _ => false

/-! ## Predictor (`model_inference.py`, `ProductivityPredictor`) -/

/-- A raw Prediction Request feature tuple:
`(foreground_app, idle_time, time_last_request)`. -/
structure Features where
  foreground_app : ℤ
  idle_time : ℤ
  time_last_request : ℤ
deriving Repr, DecidableEq

/-- The feature-normalization transform loaded from `scaler.json`:
per-feature mean and scale vectors. -/
structure Scaler where
  mean : ℚ × ℚ × ℚ
  scale : ℚ × ℚ × ℚ
deriving Repr, DecidableEq

/-- `ProductivityPredictor` state: whether a model is loaded, the loaded
model itself as a function from (possibly scaled) features to either a
raw probability or a runtime failure message (a Python exception during
`self.model.predict`), and the optional scaler. -/
structure Predictor where
  model_loaded : Bool
  model : ℚ × ℚ × ℚ → Except String ℚ
  scaler : Option Scaler

/-- Feature scaling in `predict` (model_inference.py lines 115-119):
`(features - mean) / scale`, applied componentwise when a scaler is
present, identity otherwise. -/
def scaledFeatures (P : Predictor) (f : Features) : ℚ × ℚ × ℚ :=
  let raw : ℚ × ℚ × ℚ :=
    ((f.foreground_app : ℚ), (f.idle_time : ℚ), (f.time_last_request : ℚ))
  match P.scaler with
  | some sc =>
      ((raw.1 - sc.mean.1) / sc.scale.1,
       (raw.2.1 - sc.mean.2.1) / sc.scale.2.1,
       (raw.2.2 - sc.mean.2.2) / sc.scale.2.2)
  | none => raw

/-- The raw probability the loaded model produces for a request, i.e.
`self.model.predict(features, verbose=0)[0][0]` applied to the scaled
features (line 122), or the runtime failure it raises. -/
def rawProb (P : Predictor) (f : Features) : Except String ℚ :=
  P.model (scaledFeatures P f)

/-- One Prediction Result dictionary returned by
`ProductivityPredictor.predict`; absent dictionary keys are `none`. -/
structure PredictionResult where
  prediction : Option ℕ
  confidence : ℚ
  probability : Option ℚ
  model_available : Bool
  reason : Option String
deriving Repr, DecidableEq

/-- The thresholding of `predict` (line 125):
`prediction = 1 if prob >= 0.5 else 0`. -/
def binary_prediction (prob : ℚ) : ℕ :=
  if prob ≥ 1/2 then 1 else 0

/-- The confidence formula of `predict` (line 129):
`confidence = abs(prob - 0.5) * 2.0`. -/
def confidence_of (prob : ℚ) : ℚ :=
  |prob - 1/2| * 2

/-- `ProductivityPredictor.predict` (model_inference.py lines 88-145).
If no model is loaded, return the unavailable result with reason
`"no_model"`.  Otherwise scale the features, run the model; a runtime
failure is caught and converted into an unavailable result carrying the
failure description; on a probability `prob`, return the thresholded
binary prediction, the boundary-distance confidence, and the raw
probability.  The function is total: no branch raises. -/
def predict (P : Predictor) (f : Features) : PredictionResult :=
  if !P.model_loaded then
    ⟨none, 0, none, false, some "no_model"⟩
  else
    match rawProb P f with
    | .error e => ⟨none, 0, none, false, some e⟩
    | .ok prob =>
        ⟨some (binary_prediction prob), confidence_of prob, some prob, true, none⟩

/-! ## Inference server (`model_inference.py`, `InferenceServer`) -/

/-- What one accepted connection delivers, after the read loop of
`handle_client` (lines 197-211): no bytes at all (peer closed
immediately), bytes that fail to decode as JSON (the decode failure
message), or a decoded request with its three features (absent fields
defaulting to 0 via `request.get(..., 0)`). -/
inductive ClientInput where
  | empty
  | malformed (err : String)
  | request (f : Features)

/-- Mutable server statistics: `self.request_count` and the rolling
`self.prediction_times` window. -/
structure ServerState where
  request_count : ℕ
  prediction_times : List ℚ
deriving Repr, DecidableEq

/-- One wire response sent by `handle_client`; keys the code does not
put in the dictionary are `none`.  The normal-path response carries the
Prediction Result fields plus `request_id` and `prediction_time_ms`;
the error-path response carries `error` and no `request_id`. -/
structure ServerResponse where
  prediction : Option ℕ
  confidence : ℚ
  probability : Option ℚ
  model_available : Bool
  reason : Option String
  request_id : Option ℕ
  prediction_time_ms : Option ℚ
  err : Option String
deriving Repr, DecidableEq

/-- `InferenceServer.handle_client` (lines 194-261), one connection,
with `dt` the elapsed-time measurement taken around the
`self.predictor.predict` call.  Empty input: return with no response.
Malformed input: the `json.loads` failure is caught by the `except`
block, which sends the error response (`model_available: false`, the
failure description under `error`) and touches no statistics.  A decoded
request: predict, append `dt` to the rolling window (popping the front
when the window exceeds 100), increment `request_count`, and send the
result augmented with `request_id` and `prediction_time_ms`. -/
def handle_client (P : Predictor) (S : ServerState) (input : ClientInput)
    (dt : ℚ) : ServerState × Option ServerResponse :=
  match input with
  | .empty => (S, none)
  | .malformed e =>
      (S, some ⟨none, 0, none, false, none, none, none, some e⟩)
  | .request f =>
      let r := predict P f
      let times0 := S.prediction_times ++ [dt]
      let times := if times0.length > 100 then times0.tail else times0
      let S2 : ServerState := ⟨S.request_count + 1, times⟩
      (S2, some ⟨r.prediction, r.confidence, r.probability,
        r.model_available, r.reason,
        some S2.request_count, some dt, none⟩)

/-- The server's accept loop (`InferenceServer.start`, lines 184-192),
serialized: handle each accepted connection in turn, collecting the
responses.  The loop itself never stops on a request-level failure. -/
def server_run (P : Predictor) (S : ServerState)
    (conns : List (ClientInput × ℚ)) :
    ServerState × List (Option ServerResponse) :=
  match conns with
  | [] => (S, [])
  | (input, dt) :: rest =>
      let (S2, resp) := handle_client P S input dt
      let (S3, resps) := server_run P S2 rest
      (S3, resp :: resps)

/-! ## Bytecode-level race on `request_count`

`handle_client` runs on a fresh thread per connection (line 187) and
mutates `self.request_count` with no lock.  At CPython bytecode
granularity the relevant region of lines 230-233 is three separable
attribute accesses: load `self.request_count`, store the incremented
value back, and load `self.request_count` again for
`result['request_id']`.  The machine below runs two handler threads
over this region under an explicit schedule. -/

/-- One handler thread executing the counter region: program counter
(0: about to load the counter, 1: about to store `tmp + 1`, 2: about to
load the counter into `request_id`, 3: done), the loaded temporary, and
the `request_id` it will send. -/
structure HandlerThread where
  pc : ℕ
  tmp : ℕ
  rid : Option ℕ
deriving Repr, DecidableEq

/-- Shared state of the race machine: the server's `request_count` and
two concurrent handler threads. -/
structure RaceState where
  count : ℕ
  t0 : HandlerThread
  t1 : HandlerThread
deriving Repr, DecidableEq

/-- Execute one bytecode-level step of a handler thread against the
shared counter, returning the new counter and thread. -/
def threadStep (count : ℕ) (t : HandlerThread) : ℕ × HandlerThread :=
  match t.pc with
  | 0 => (count, { t with tmp := count, pc := 1 })
  | 1 => (t.tmp + 1, { t with pc := 2 })
  | 2 => (count, { t with rid := some count, pc := 3 })
  | _ => (count, t)

/-- Schedule one step of thread 0 (`false`) or thread 1 (`true`). -/
def raceStep (s : RaceState) (which : Bool) : RaceState :=
  if which then
    let r := threadStep s.count s.t1
    { s with count := r.1, t1 := r.2 }
  else
    let r := threadStep s.count s.t0
    { s with count := r.1, t0 := r.2 }

/-- Run the race machine under a schedule. -/
def raceRun (s : RaceState) (sched : List Bool) : RaceState :=
  sched.foldl raceStep s

/-- Initial race state: `request_count = 0` (a fresh server process),
both handler threads about to execute the counter region. -/
def raceInit : RaceState :=
  ⟨0, ⟨0, 0, none⟩, ⟨0, 0, none⟩⟩

/-! ## Signal delivery during a commit

`BackgroundTrainer.shutdown` (lines 307-314) is installed as the
handler for SIGINT/SIGTERM.  CPython runs the handler in the main
thread between bytecodes, so it can fire anywhere inside the commit
sequence of `train_model` (lines 242-244); its `sys.exit(0)` raises
`SystemExit` at that point, which no `except Exception` clause in
`train_model` or `run` catches, so the rest of the commit is abandoned
and the process exits.  The machine below executes the commit step by
step with a signal arriving after a given number of steps. -/

/-- Process-level supervisor state: in-memory Trainer State, the
persisted copy in `trainer_state.json`, the `running` flag, and the
exit status once the process has exited. -/
structure SupProc where
  mem : TrainerState
  disk : Option TrainerState
  running : Bool
  exited : Option ℕ
deriving Repr, DecidableEq

/-- The three statements of the commit sequence in `train_model`:
`self.training_count += 1`, `self.last_trained_samples =
self.get_sample_count()` (whose fresh result is `c`), and
`self.save_state()`. -/
inductive CommitStep where
  | incCount
  | setLast (c : ℤ)
  | persist
deriving Repr, DecidableEq

/-- Execute one commit statement. -/
def applyCommitStep (p : SupProc) : CommitStep → SupProc
  | .incCount =>
      { p with mem := { p.mem with training_count := p.mem.training_count + 1 } }
  | .setLast c =>
      { p with mem := { p.mem with last_trained_samples := c } }
  | .persist => { p with disk := some p.mem }

/-- `BackgroundTrainer.shutdown`: persist the current in-memory state
(`save_state`), clear `running`, and exit with status 0 — `sys.exit(0)`
raises at the interrupted point, abandoning any statements that were
still to run there. -/
def runShutdownHandler (p : SupProc) : SupProc :=
  { p with disk := some p.mem, running := false, exited := some 0 }

/-- The commit sequence of a successful cycle whose commit-time
`get_sample_count()` returns `c`. -/
def commitSeq (c : ℤ) : List CommitStep :=
  [.incCount, .setLast c, .persist]

/-- Run the commit sequence with a termination signal delivered after
`sigAt` statements have executed: the handler runs at that point and
the remaining statements are abandoned. -/
def runCommitWithSignal (c : ℤ) (sigAt : ℕ) (p : SupProc) : SupProc :=
  runShutdownHandler (((commitSeq c).take sigAt).foldl applyCommitStep p)

/-- Running the whole commit sequence with no signal. -/
def runCommit (c : ℤ) (p : SupProc) : SupProc :=
  (commitSeq c).foldl applyCommitStep p

/-! ## Shared lemmas -/

/-- A failing cycle leaves the in-memory Trainer State untouched. -/
theorem train_model_state_of_fails {α : Type} (valid : α → Bool)
    (outcome : TrainOutcome α) (c : ℤ) (s : TrainerState) (st : ModelStore α)
    (hfail : cycleFails valid outcome = true) :
    (train_model valid outcome c s st).state = s := by
  cases outcome with
  | throws => rfl
  | writes a =>
      simp only [cycleFails, Bool.not_eq_true'] at hfail
      simp [train_model, hfail]

/-- A successful cycle commits `⟨commit_count, training_count + 1⟩`. -/
theorem train_model_state_of_succeeds {α : Type} (valid : α → Bool) (a : α)
    (c : ℤ) (s : TrainerState) (st : ModelStore α) (hvalid : valid a = true) :
    (train_model valid (.writes a) c s st).state = ⟨c, s.training_count + 1⟩ := by
  simp [train_model, hvalid]

/-- Dropping the second element of a non-decreasing chain whose head is
below it keeps the chain non-decreasing. -/
theorem chain_le_drop {a b : ℤ} {l : List ℤ} (hab : a ≤ b)
    (h : List.Chain' (· ≤ ·) (b :: l)) : List.Chain' (· ≤ ·) (a :: l) := by
  cases l with
  | nil => simp
  | cons c l =>
      exact List.chain'_cons.mpr
        ⟨le_trans hab (List.chain'_cons.mp h).1, (List.chain'_cons.mp h).2⟩

/-! ## Claim theorems -/

/-- Claim C1: `should_train` is a pure decision.  With
completed-training-count `= 0` it returns true iff the current row
count reaches `min_total_samples`; with completed-training-count `> 0`
and rows-consumed-at-last-training `r` it returns true iff
`c - r ≥ min_new_samples`.  Hence it flips from false to true exactly
at the boundary, not before. -/
theorem should_train_boundary (cfg : TrainerConfig) (s : TrainerState)
    (c : ℤ) :
    (s.training_count = 0 →
      (should_train cfg s c = true ↔ cfg.min_total_samples ≤ c))
    ∧ (0 < s.training_count →
      (should_train cfg s c = true ↔
        cfg.min_new_samples ≤ c - s.last_trained_samples)) := by
  constructor
  · intro h
    simp [should_train, h, ge_iff_le]
  · intro h
    simp [should_train, h.ne', ge_iff_le]

/-- Witness for C1: with thresholds `min_new = 50`, `min_total = 100`,
the first training fires at exactly 100 rows, and with one completed
training at 120 consumed rows a retraining fires at 170 rows. -/
theorem should_train_boundary_witness :
    should_train ⟨50, 100⟩ ⟨0, 0⟩ 100 = true
    ∧ should_train ⟨50, 100⟩ ⟨120, 1⟩ 170 = true :=
  ⟨((should_train_boundary ⟨50, 100⟩ ⟨0, 0⟩ 100).1 rfl).mpr (by decide),
   ((should_train_boundary ⟨50, 100⟩ ⟨120, 1⟩ 170).2 (by decide)).mpr
     (by decide)⟩

/-- Claim C2: a cycle in which validation fails — and likewise one in
which the trainer raises — leaves Trainer State exactly as before,
returns a failure result without persisting, and restores the backup
over the current artifact, so whenever a pre-cycle current artifact
existed the post-cycle current artifact is identical to it. -/
theorem train_model_failure_rollback {α : Type} (valid : α → Bool)
    (outcome : TrainOutcome α) (c : ℤ) (s : TrainerState)
    (st : ModelStore α) (hfail : cycleFails valid outcome = true) :
    (train_model valid outcome c s st).state = s
    ∧ (train_model valid outcome c s st).ok = false
    ∧ (train_model valid outcome c s st).saved = false
    ∧ (∀ a, st.current = some a →
        (train_model valid outcome c s st).store.current = some a) := by
  refine ⟨train_model_state_of_fails valid outcome c s st hfail, ?_, ?_, ?_⟩
  · cases outcome with
    | throws => rfl
    | writes a =>
        simp only [cycleFails, Bool.not_eq_true'] at hfail
        simp [train_model, hfail]
  · cases outcome with
    | throws => rfl
    | writes a =>
        simp only [cycleFails, Bool.not_eq_true'] at hfail
        simp [train_model, hfail]
  · intro a ha
    cases outcome with
    | throws => simp [train_model, backup_model, rollback_model, ha]
    | writes b =>
        simp only [cycleFails, Bool.not_eq_true'] at hfail
        simp [train_model, backup_model, rollback_model, ha, hfail]

/-- Witness for C2: a failed validation of a freshly written artifact
`7` over a store whose current artifact is `3` rolls back to `3` and
leaves the state `⟨10, 2⟩` untouched. -/
theorem train_model_failure_rollback_witness :
    (train_model (fun _ : ℕ => false) (.writes 7) 99 ⟨10, 2⟩
      ⟨some 3, none⟩).state = ⟨10, 2⟩
    ∧ (train_model (fun _ : ℕ => false) (.writes 7) 99 ⟨10, 2⟩
      ⟨some 3, none⟩).store.current = some 3 :=
  have h := train_model_failure_rollback (fun _ : ℕ => false) (.writes 7) 99
    ⟨10, 2⟩ ⟨some 3, none⟩ (by decide)
  ⟨h.1, h.2.2.2 3 rfl⟩

/-- Claim C3: a cycle that passes validation increments
`training_count` by exactly 1, sets `last_trained_samples` to the row
count measured by the fresh `get_sample_count` call at commit time
(`train_model` never even receives the trigger-time count), and runs
`save_state`. -/
theorem train_model_success_commit {α : Type} (valid : α → Bool) (a : α)
    (c : ℤ) (s : TrainerState) (st : ModelStore α)
    (hvalid : valid a = true) :
    (train_model valid (.writes a) c s st).state.training_count =
      s.training_count + 1
    ∧ (train_model valid (.writes a) c s st).state.last_trained_samples = c
    ∧ (train_model valid (.writes a) c s st).saved = true
    ∧ (train_model valid (.writes a) c s st).ok = true := by
  simp [train_model, hvalid]

/-- Witness for C3: a validated artifact `7` with commit-time count 160
moves the state from `⟨100, 1⟩` to count 2 and rows-consumed 160,
persisting. -/
theorem train_model_success_commit_witness :
    (train_model (fun _ : ℕ => true) (.writes 7) 160 ⟨100, 1⟩
      ⟨some 3, none⟩).state.training_count = 2
    ∧ (train_model (fun _ : ℕ => true) (.writes 7) 160 ⟨100, 1⟩
      ⟨some 3, none⟩).state.last_trained_samples = 160
    ∧ (train_model (fun _ : ℕ => true) (.writes 7) 160 ⟨100, 1⟩
      ⟨some 3, none⟩).saved = true :=
  have h := train_model_success_commit (fun _ : ℕ => true) 7 160 ⟨100, 1⟩
    ⟨some 3, none⟩ rfl
  ⟨h.1, h.2.1, h.2.2.1⟩

/-- Claim C4: when a loaded model yields raw probability `p`, `predict`
returns prediction `1` if `p ≥ 0.5` and `0` otherwise, and confidence
`|p - 0.5| * 2`; for `p ∈ [0,1]` that confidence lies in `[0,1]`, and
it is monotonically non-decreasing in the distance `|p - 0.5|` from the
decision boundary. -/
theorem predict_threshold_confidence (P : Predictor) (f : Features)
    (p : ℚ) (hload : P.model_loaded = true)
    (hp : rawProb P f = .ok p) :
    (predict P f).prediction = some (if 1/2 ≤ p then 1 else 0)
    ∧ (predict P f).confidence = confidence_of p
    ∧ (0 ≤ p → p ≤ 1 →
        0 ≤ confidence_of p ∧ confidence_of p ≤ 1)
    ∧ (∀ q r : ℚ, |q - 1/2| ≤ |r - 1/2| →
        confidence_of q ≤ confidence_of r) := by
  refine ⟨?_, ?_, ?_, ?_⟩
  · simp [predict, hload, hp, binary_prediction, ge_iff_le]
  · simp [predict, hload, hp]
  · intro h0 h1
    have habs : |p - 1/2| ≤ 1/2 := abs_le.mpr ⟨by linarith, by linarith⟩
    have hnn : (0:ℚ) ≤ |p - 1/2| := abs_nonneg _
    unfold confidence_of
    constructor <;> linarith
  · intro q r h
    unfold confidence_of
    linarith

/-- Witness for C4: a model that always yields probability `3/4`
produces prediction `1` with confidence `1/2`. -/
theorem predict_threshold_confidence_witness :
    (predict ⟨true, fun _ => .ok (3/4), none⟩ ⟨1, 2, 3⟩).prediction = some 1
    ∧ (predict ⟨true, fun _ => .ok (3/4), none⟩ ⟨1, 2, 3⟩).confidence =
        confidence_of (3/4)
    ∧ confidence_of (3/4) ≤ 1 :=
  have h := predict_threshold_confidence ⟨true, fun _ => .ok (3/4), none⟩
    ⟨1, 2, 3⟩ (3/4) rfl rfl
  ⟨h.1.trans (by norm_num), h.2.1, (h.2.2.1 (by norm_num) (by norm_num)).2⟩

/-- Claim C5: `predict` is a total function of its inputs (so it never
propagates an exception): with no model loaded it returns the
unavailable result with confidence `0` and reason `"no_model"`, and
when inference fails at runtime it returns the unavailable result
carrying the failure description. -/
theorem predict_never_raises (P : Predictor) (f : Features) :
    (P.model_loaded = false →
      predict P f = ⟨none, 0, none, false, some "no_model"⟩)
    ∧ (∀ e, P.model_loaded = true → rawProb P f = .error e →
      predict P f = ⟨none, 0, none, false, some e⟩) := by
  constructor
  · intro h
    simp [predict, h]
  · intro e hload herr
    simp [predict, hload, herr]

/-- Witness for C5: an unloaded predictor answers `"no_model"`, and a
loaded model whose inference raises `"boom"` answers with that
description; neither case escapes as an exception. -/
theorem predict_never_raises_witness :
    predict ⟨false, fun _ => .ok 0, none⟩ ⟨1, 2, 3⟩ =
      ⟨none, 0, none, false, some "no_model"⟩
    ∧ predict ⟨true, fun _ => .error "boom", none⟩ ⟨1, 2, 3⟩ =
      ⟨none, 0, none, false, some "boom"⟩ :=
  ⟨(predict_never_raises ⟨false, fun _ => .ok 0, none⟩ ⟨1, 2, 3⟩).1 rfl,
   (predict_never_raises ⟨true, fun _ => .error "boom", none⟩ ⟨1, 2, 3⟩).2
     "boom" rfl rfl⟩

/-- Claim C6 fails on the code: `handle_client` runs on one thread per
connection and increments `self.request_count` with no lock, so two
concurrent connections can interleave at bytecode granularity.  Under
the schedule that alternates the two handler threads, both threads load
the counter at `0`, both store `1`, and both send `request_id = 1`: the
two responses of one process carry equal — not strictly increasing —
request ids, and the counter itself records a single request.  A lock
(which the specification requires around these counters) would restore
the claimed behavior. -/
theorem concurrent_request_id_collision :
    (raceRun raceInit [false, true, false, true, false, true]).t0.rid =
      some 1
    ∧ (raceRun raceInit [false, true, false, true, false, true]).t1.rid =
      some 1
    ∧ (raceRun raceInit [false, true, false, true, false, true]).count = 1 :=
  by decide

/-- Claim C7: a connection whose bytes fail to decode receives the
error response with `model_available: false` and the failure
description in its `error` field, the failure leaves the server
statistics untouched, and the accept loop handles all remaining
connections exactly as if the malformed one had never happened. -/
theorem malformed_input_error_response (P : Predictor) (S : ServerState)
    (e : String) (dt : ℚ) (rest : List (ClientInput × ℚ)) :
    (handle_client P S (.malformed e) dt).2 =
      some ⟨none, 0, none, false, none, none, none, some e⟩
    ∧ (handle_client P S (.malformed e) dt).1 = S
    ∧ server_run P S ((.malformed e, dt) :: rest) =
        ((server_run P S rest).1,
          some ⟨none, 0, none, false, none, none, none, some e⟩ ::
            (server_run P S rest).2) := by
  refine ⟨rfl, rfl, ?_⟩
  simp [server_run, handle_client]

/-- Claim C8 fails on the code: `BackgroundTrainer.shutdown` is a
signal handler that CPython may run between any two bytecodes of the
main thread, and its `sys.exit(0)` raises `SystemExit` at that point —
which no `except Exception` clause catches — abandoning whatever was
still to run.  Delivered after `training_count += 1` but before
`last_trained_samples = get_sample_count()`, the handler persists a
half-committed state `⟨100, 2⟩` and exits 0, whereas completing the
in-flight commit (as the claim requires) would persist `⟨160, 2⟩`. -/
theorem signal_mid_commit_abandons :
    runCommitWithSignal 160 1 ⟨⟨100, 1⟩, some ⟨100, 1⟩, true, none⟩ =
      ⟨⟨100, 2⟩, some ⟨100, 2⟩, false, some 0⟩
    ∧ runCommit 160 ⟨⟨100, 1⟩, some ⟨100, 1⟩, true, none⟩ =
      ⟨⟨160, 2⟩, some ⟨160, 2⟩, true, none⟩ := by
  decide

/-- Claim C9: along any sequence of supervisor operations,
`last_trained_samples` is mutated only by an operation that commits a
successful training cycle, and — because the Dataset Source is
append-only, i.e. the row counts observed over time form a
non-decreasing chain starting no lower than the value currently
recorded — it is monotonically non-decreasing, so no successful commit
ever records a smaller value than the one it replaces. -/
theorem last_trained_samples_monotone {α : Type} (cfg : TrainerConfig) :
    (∀ (p : TrainerState × ModelStore α) (op : SupervisorOp α),
      opCommits cfg p.1 op = false →
      (supervisor_step cfg p op).1.last_trained_samples =
        p.1.last_trained_samples)
    ∧ (∀ (p : TrainerState × ModelStore α) (ops : List (SupervisorOp α)),
      List.Chain' (· ≤ ·) (p.1.last_trained_samples :: obsOf ops) →
      p.1.last_trained_samples ≤
        (supervisor_run cfg p ops).1.last_trained_samples) := by
  have frame : ∀ (p : TrainerState × ModelStore α) (op : SupervisorOp α),
      opCommits cfg p.1 op = false →
      (supervisor_step cfg p op).1.last_trained_samples =
        p.1.last_trained_samples := by
    intro p op hnc
    cases op with
    | tickNoCsv => rfl
    | tickNoTrain c => rfl
    | shutdownOp => rfl
    | tickCycle valid outcome cTrig cCommit =>
        simp only [opCommits, Bool.and_eq_false_iff] at hnc
        simp only [supervisor_step]
        rcases hnc with hst | hfail
        · simp [hst]
        · cases hst : should_train cfg p.1 cTrig with
          | false => simp
          | true =>
              simp only [Bool.not_eq_false'] at hfail
              simp [train_model_state_of_fails valid outcome cCommit p.1 p.2
                hfail]
  refine ⟨frame, ?_⟩
  intro p ops
  induction ops generalizing p with
  | nil => intro _; exact le_refl _
  | cons op rest ih =>
      intro hchain
      have hrun : supervisor_run cfg p (op :: rest) =
          supervisor_run cfg (supervisor_step cfg p op) rest := rfl
      rw [hrun]
      cases op with
      | tickNoCsv => exact ih p hchain
      | shutdownOp => exact ih p hchain
      | tickNoTrain c =>
          have hc : p.1.last_trained_samples ≤ c :=
            (List.chain'_cons.mp hchain).1
          have htail : List.Chain' (· ≤ ·) (c :: obsOf rest) :=
            (List.chain'_cons.mp hchain).2
          exact ih p (chain_le_drop hc htail)
      | tickCycle valid outcome cTrig cCommit =>
          have h1 : p.1.last_trained_samples ≤ cTrig :=
            (List.chain'_cons.mp hchain).1
          have hchain2 : List.Chain' (· ≤ ·)
              (cTrig :: cCommit :: obsOf rest) :=
            (List.chain'_cons.mp hchain).2
          have h2 : cTrig ≤ cCommit := (List.chain'_cons.mp hchain2).1
          have hchain3 : List.Chain' (· ≤ ·) (cCommit :: obsOf rest) :=
            (List.chain'_cons.mp hchain2).2
          have hdropped : List.Chain' (· ≤ ·)
              (p.1.last_trained_samples :: obsOf rest) :=
            chain_le_drop h1 (chain_le_drop h2 hchain3)
          by_cases hst : should_train cfg p.1 cTrig = true
          · cases outcome with
            | throws =>
                have hstep : (supervisor_step cfg p
                    (.tickCycle valid .throws cTrig cCommit)).1 = p.1 := by
                  simp [supervisor_step, hst,
                    train_model_state_of_fails valid .throws cCommit p.1 p.2
                      rfl]
                have hrec := ih
                  (supervisor_step cfg p (.tickCycle valid .throws cTrig cCommit))
                  (by rw [hstep]; exact hdropped)
                rw [hstep] at hrec
                exact hrec
            | writes a =>
                by_cases hv : valid a = true
                · have hstep : (supervisor_step cfg p
                      (.tickCycle valid (.writes a) cTrig cCommit)).1 =
                      ⟨cCommit, p.1.training_count + 1⟩ := by
                    simp [supervisor_step, hst,
                      train_model_state_of_succeeds valid a cCommit p.1 p.2
                        hv]
                  have hrec := ih
                    (supervisor_step cfg p
                      (.tickCycle valid (.writes a) cTrig cCommit))
                    (by rw [hstep]; exact hchain3)
                  rw [hstep] at hrec
                  exact le_trans (le_trans h1 h2) hrec
                · have hfl : cycleFails valid (.writes a) = true := by
                    simp [cycleFails, hv]
                  have hstep : (supervisor_step cfg p
                      (.tickCycle valid (.writes a) cTrig cCommit)).1 =
                      p.1 := by
                    simp [supervisor_step, hst,
                      train_model_state_of_fails valid (.writes a) cCommit
                        p.1 p.2 hfl]
                  have hrec := ih
                    (supervisor_step cfg p
                      (.tickCycle valid (.writes a) cTrig cCommit))
                    (by rw [hstep]; exact hdropped)
                  rw [hstep] at hrec
                  exact hrec
          · have hstep : supervisor_step cfg p
                (.tickCycle valid outcome cTrig cCommit) = p := by
              simp [supervisor_step, hst]
            rw [hstep]
            exact ih p hdropped

/-- Witness for C9: a non-triggering tick leaves rows-consumed at 0,
and a trace with one non-triggering tick followed by one successful
cycle over a growing log keeps rows-consumed at or above its initial
value. -/
theorem last_trained_samples_monotone_witness :
    (supervisor_step ⟨50, 100⟩
      ((⟨0, 0⟩ : TrainerState), (⟨none, none⟩ : ModelStore ℕ))
      (.tickNoTrain 7)).1.last_trained_samples = 0
    ∧ (0 : ℤ) ≤ (supervisor_run ⟨50, 100⟩
      ((⟨0, 0⟩ : TrainerState), (⟨none, none⟩ : ModelStore ℕ))
      [.tickNoTrain 40,
       .tickCycle (fun _ => true) (.writes 5) 100 120]).1.last_trained_samples :=
  ⟨(last_trained_samples_monotone ⟨50, 100⟩).1 (⟨0, 0⟩, ⟨none, none⟩)
      (.tickNoTrain 7) (by decide),
   (last_trained_samples_monotone ⟨50, 100⟩).2 (⟨0, 0⟩, ⟨none, none⟩)
      [.tickNoTrain 40, .tickCycle (fun _ => true) (.writes 5) 100 120]
      (by norm_num [obsOf, opObs, List.chain'_cons])⟩

/-- Claim C10: every result of `predict` satisfies the availability
invariant — `model_available` is true iff the prediction is `0` or
`1`; an unavailable result has no prediction, confidence exactly `0`,
and a reason string; an available result carries the raw
probability. -/
theorem predict_result_invariant (P : Predictor) (f : Features) :
    ((predict P f).model_available = true ↔
      ((predict P f).prediction = some 0 ∨
        (predict P f).prediction = some 1))
    ∧ ((predict P f).model_available = false →
        (predict P f).prediction = none
        ∧ (predict P f).confidence = 0
        ∧ (predict P f).reason.isSome = true)
    ∧ ((predict P f).model_available = true →
        (predict P f).probability.isSome = true) := by
  cases hL : P.model_loaded with
  | false => simp [predict, hL]
  | true =>
      cases hp : rawProb P f with
      | error e => simp [predict, hL, hp]
      | ok prob =>
          simp only [predict, hL, Bool.not_true, Bool.false_eq_true,
            if_false, hp]
          refine ⟨?_, ?_, ?_⟩
          · simp [binary_prediction]
            exact lt_or_le prob 2⁻¹
          · intro h
            simp at h
          · intro _
            simp

/-- Witness for C10: on a model yielding probability `1/4` the result
is available with prediction `0` and carries the probability; on an
unloaded predictor the result is unavailable with confidence `0` and a
reason. -/
theorem predict_result_invariant_witness :
    (predict ⟨true, fun _ => .ok (1/4), none⟩ ⟨1, 2, 3⟩).prediction = some 0
    ∧ (predict ⟨true, fun _ => .ok (1/4), none⟩ ⟨1, 2, 3⟩).probability.isSome
        = true
    ∧ (predict ⟨false, fun _ => .ok 0, none⟩ ⟨1, 2, 3⟩).confidence = 0 :=
  have h1 := predict_result_invariant ⟨true, fun _ => .ok (1/4), none⟩
    ⟨1, 2, 3⟩
  have h2 := predict_result_invariant ⟨false, fun _ => .ok 0, none⟩
    ⟨1, 2, 3⟩
  ⟨by
      rcases h1.1.mp (by norm_num [predict, rawProb, scaledFeatures]) with
        h | h
      · exact h
      · exact absurd h (by norm_num [predict, rawProb, scaledFeatures,
          binary_prediction]),
    h1.2.2 (by norm_num [predict, rawProb, scaledFeatures]),
    (h2.2.1 (by norm_num [predict])).2.1⟩

end Nudge
